import Mathlib

/-!
Shallow embedding of `src/main.cpp` from the Direct11-ExclusiveFullscreen-Example
repository: a minimal Win32 / Direct3D 11 program that opens a fullscreen popup
window, initializes a device, swapchain and a small pipeline, and renders a
rotating triangle each frame.  F11 toggles exclusive fullscreen, WM_DESTROY
posts WM_QUIT, and the message loop renders a frame whenever no message is
pending.

Modelling choices:
* Win32 / D3D / DXGI calls are external effects.  Each embedded function
  returns, along with its result and the updated program state, the list of
  API calls it performed (`Event`), in program order.  Logging to standard
  error is an `Event.logStdErr` carrying the logged text.
* HRESULTs returned by the external APIs are oracle inputs, gathered in `Env`.
  `FAILED hr` is `hr < 0`, exactly the Windows `FAILED` macro on a signed
  32-bit HRESULT.
* Float arithmetic of the source (`Time += 0.01f`, clear color, vertex data)
  is modelled over `Rat` with the source's literal values; the trigonometric
  matrix produced by `XMMatrixRotationZ` and its `XMMatrixTranspose` are kept
  symbolic (`Mat`), recording exactly the expression the code computes.
* `exit(1)` inside the window procedure is modelled by an `Option Nat` exit
  code in the result; `none` means execution continues.
-/

namespace D3DTriangle

/-- HRESULT: a signed 32-bit result code.  Negative means failure. -/
abbrev HRESULT := Int

/-- The Windows FAILED macro: an HRESULT denotes failure iff it is negative. -/
def FAILED (hr : HRESULT) : Bool := hr < 0

/-- The success HRESULT. -/
def S_OK : HRESULT := 0

/-- Win32 message identifier WM_KEYDOWN (0x0100). -/
def WM_KEYDOWN : Nat := 0x0100

/-- Win32 message identifier WM_SIZE (0x0005). -/
def WM_SIZE : Nat := 0x0005

/-- Win32 message identifier WM_DESTROY (0x0002). -/
def WM_DESTROY : Nat := 0x0002

/-- Win32 message identifier WM_QUIT (0x0012). -/
def WM_QUIT : Nat := 0x0012

/-- Virtual-key code VK_F11 (0x7A). -/
def VK_F11 : Nat := 0x7A

/-- Window style WS_POPUP (0x80000000). -/
def WS_POPUP : Nat := 0x80000000

/-- Primitive topology D3D11_PRIMITIVE_TOPOLOGY_TRIANGLELIST (= 4). -/
def D3D11_PRIMITIVE_TOPOLOGY_TRIANGLELIST : Nat := 4

/-- The two GPU buffers the program creates. -/
inductive BufferId where
  | vertexBuffer
  | constBuffer
deriving DecidableEq, Repr

/-- Symbolic 4x4 float matrix expressions, recording exactly the DirectXMath
computation the code performs (`XMMatrixRotationZ` of the accumulated time,
then `XMMatrixTranspose`). -/
inductive Mat where
  | rotationZ (t : Rat) : Mat
  | transpose (m : Mat) : Mat
deriving DecidableEq, Repr

/-- `DirectX::XMMatrixRotationZ`. -/
def XMMatrixRotationZ (t : Rat) : Mat := Mat.rotationZ t

/-- `DirectX::XMMatrixTranspose`. -/
def XMMatrixTranspose (m : Mat) : Mat := Mat.transpose m

/-- The constant buffer record: one 4x4 transform matrix (struct CBUFFER). -/
structure CBUFFER where
  FinalMatrix : Mat
deriving DecidableEq, Repr

/-- A vertex: 3D position + RGBA color (struct Vertex). -/
structure Vertex where
  position : Rat × Rat × Rat
  color : Rat × Rat × Rat × Rat
deriving DecidableEq, Repr

/-- External API calls performed by the program, in program order. -/
inductive Event where
  | logStdErr (msg : String) : Event
  | createDevice : Event
  | queryIDXGIDevice : Event
  | getAdapter : Event
  | getParentFactory : Event
  | createSwapChainForHwnd : Event
  | getBuffer : Event
  | createRenderTargetView : Event
  | omSetRenderTargets : Event
  | rsSetViewports (width height : Rat) : Event
  | d3dCompile (entryPoint : String) : Event
  | createVertexShader : Event
  | createPixelShader : Event
  | createInputLayout : Event
  | iaSetInputLayout : Event
  | createBuffer (b : BufferId) : Event
  | vsSetConstantBuffers (slot count : Nat) (b : BufferId) : Event
  | iaSetVertexBuffers (b : BufferId) : Event
  | iaSetPrimitiveTopology (topology : Nat) : Event
  | updateSubresource (b : BufferId) (cb : CBUFFER) : Event
  | clearRenderTargetView (color : List Rat) : Event
  | vsSetShader : Event
  | psSetShader : Event
  | draw (vertexCount startVertexLocation : Nat) : Event
  | present (syncInterval flags : Nat) : Event
  | resizeBuffers (bufferCount : Nat) (width height : Nat) : Event
  | releaseRenderTargetView : Event
  | setFullscreenState (fullscreen : Bool) : Event
  | postQuitMessage (code : Nat) : Event
  | translateMessage : Event
  | dispatchMessage : Event
  | defWindowProc : Event
  | registerClass (className : String) : Event
  | createWindowExA (className title : String) (style : Nat)
      (width height : Int) : Event
  | showWindow : Event
deriving DecidableEq, Repr

/-- Oracle for the results of external API calls during one invocation. -/
structure Env where
  createDevice_hr : HRESULT
  queryIDXGIDevice_hr : HRESULT
  getAdapter_hr : HRESULT
  getParentFactory_hr : HRESULT
  createSwapChain_hr : HRESULT
  compileVS_hr : HRESULT
  compilePS_hr : HRESULT
  vsErrorBlob : Bool
  psErrorBlob : Bool
  createVertexBuffer_hr : HRESULT
  setFullscreenState_hr : HRESULT
  resizeBuffers_hr : HRESULT
  getBuffer_hr : HRESULT
  createRTV_hr : HRESULT
  screenWidth : Int
  screenHeight : Int
  clientWidth : Nat
  clientHeight : Nat
  createWindow_succeeds : Bool
  defWindowProc_result : Int
deriving DecidableEq, Repr

/-- An environment in which every API call succeeds. -/
def envOk : Env :=
  { createDevice_hr := 0, queryIDXGIDevice_hr := 0, getAdapter_hr := 0,
    getParentFactory_hr := 0, createSwapChain_hr := 0, compileVS_hr := 0,
    compilePS_hr := 0, vsErrorBlob := false, psErrorBlob := false,
    createVertexBuffer_hr := 0, setFullscreenState_hr := 0,
    resizeBuffers_hr := 0, getBuffer_hr := 0, createRTV_hr := 0,
    screenWidth := 1920, screenHeight := 1080,
    clientWidth := 1920, clientHeight := 1080,
    createWindow_succeeds := true, defWindowProc_result := 0 }

/-- The program state of class MainWindow that the claims refer to:
the fullscreen flag, the static `Time` accumulator of `renderFrame`, whether
the window handle is valid, and — as an environment model of the driver side —
the swapchain's actual fullscreen state, which changes only when a
`SetFullscreenState` call succeeds. -/
structure MainWindow where
  is_fullscreen_ : Bool
  Time : Rat
  hWndValid : Bool
  swapchainFullscreen : Bool
deriving DecidableEq, Repr

/-- The freshly constructed MainWindow: `is_fullscreen_(false)`; the static
`Time` starts at 0; the swapchain starts windowed. -/
def initialWindow : MainWindow :=
  { is_fullscreen_ := false, Time := 0, hWndValid := false,
    swapchainFullscreen := false }

/-- Result of a void member function: new state plus the API calls made. -/
structure StepResult where
  state : MainWindow
  events : List Event
deriving DecidableEq, Repr

/-- Result of an HRESULT-returning member function. -/
structure HrResult where
  hr : HRESULT
  state : MainWindow
  events : List Event
deriving DecidableEq, Repr

/-- `MainWindow::toggleFullscreen` (main.cpp:126-134): negate
`is_fullscreen_`, then call `SetFullscreenState` with the new flag; on
failure log to stderr and return.  The driver-side fullscreen state
(`swapchainFullscreen`) follows the call only when it succeeds. -/
def toggleFullscreen (env : Env) (s : MainWindow) : StepResult :=
  let flag := !s.is_fullscreen_
  let hr := env.setFullscreenState_hr
  if FAILED hr then
    { state := { s with is_fullscreen_ := flag },
      events := [Event.setFullscreenState flag,
                 Event.logStdErr "Failed to toggle fullscreen mode."] }
  else
    { state := { s with is_fullscreen_ := flag, swapchainFullscreen := flag },
      events := [Event.setFullscreenState flag] }

/-- `MainWindow::resizeSwapChain` (main.cpp:142-182): release the render
target view, `ResizeBuffers`, `GetBuffer`, `CreateRenderTargetView` (logging
on failure), rebind render targets, set the viewport.  Returns the first
failing HRESULT, else S_OK. -/
def resizeSwapChain (env : Env) (s : MainWindow) (width height : Nat) :
    HrResult :=
  let evs0 := [Event.releaseRenderTargetView,
               Event.resizeBuffers 0 width height]
  if FAILED env.resizeBuffers_hr then
    { hr := env.resizeBuffers_hr, state := s, events := evs0 }
  else
    let evs1 := evs0 ++ [Event.getBuffer]
    if FAILED env.getBuffer_hr then
      { hr := env.getBuffer_hr, state := s, events := evs1 }
    else
      let evs2 := evs1 ++ [Event.createRenderTargetView]
      if FAILED env.createRTV_hr then
        { hr := env.createRTV_hr, state := s,
          events := evs2 ++
            [Event.logStdErr "Failed to create render target view"] }
      else
        { hr := S_OK, state := s,
          events := evs2 ++
            [Event.omSetRenderTargets,
             Event.rsSetViewports (width : Rat) (height : Rat)] }

/-- The clear color of `renderFrame` (main.cpp:378): { 0.0, 0.2, 0.4, 1.0 }. -/
def clearColor : List Rat := [0, 2/10, 4/10, 1]

/-- `MainWindow::renderFrame` (main.cpp:360-388): advance the static `Time`
by 0.01, build the transposed Z-rotation matrix, update the constant buffer,
rebind and clear the render target, set shaders, draw 3 vertices, present.
Always returns S_OK (the Present result is ignored). -/
def renderFrame (s : MainWindow) : HrResult :=
  let time := s.Time + 1/100
  let rotationMatrix := XMMatrixRotationZ time
  let cb : CBUFFER := { FinalMatrix := XMMatrixTranspose rotationMatrix }
  { hr := S_OK,
    state := { s with Time := time },
    events := [Event.updateSubresource BufferId.constBuffer cb,
               Event.omSetRenderTargets,
               Event.clearRenderTargetView clearColor,
               Event.vsSetShader,
               Event.psSetShader,
               Event.draw 3 0,
               Event.present 1 0] }

/-- `MainWindow::initD3D` (main.cpp:184-265): create the device, query the
DXGI device, adapter and factory, create the swapchain (each failure logged
and returned), then get the back buffer, create the render target view
(results unchecked), bind it and set a 1920x1080 viewport. -/
def initD3D (env : Env) (s : MainWindow) : HrResult :=
  if FAILED env.createDevice_hr then
    { hr := env.createDevice_hr, state := s,
      events := [Event.createDevice,
                 Event.logStdErr "Failed to create device"] }
  else if FAILED env.queryIDXGIDevice_hr then
    { hr := env.queryIDXGIDevice_hr, state := s,
      events := [Event.createDevice, Event.queryIDXGIDevice,
                 Event.logStdErr "Failed to query IDXGIDevice interface"] }
  else if FAILED env.getAdapter_hr then
    { hr := env.getAdapter_hr, state := s,
      events := [Event.createDevice, Event.queryIDXGIDevice,
                 Event.getAdapter,
                 Event.logStdErr "Failed to GetAdapter from device"] }
  else if FAILED env.getParentFactory_hr then
    { hr := env.getParentFactory_hr, state := s,
      events := [Event.createDevice, Event.queryIDXGIDevice,
                 Event.getAdapter, Event.getParentFactory,
                 Event.logStdErr "Failed to IDXGIFactory2 from adapter"] }
  else if FAILED env.createSwapChain_hr then
    { hr := env.createSwapChain_hr, state := s,
      events := [Event.createDevice, Event.queryIDXGIDevice,
                 Event.getAdapter, Event.getParentFactory,
                 Event.createSwapChainForHwnd,
                 Event.logStdErr "Failed to create swapchain"] }
  else
    { hr := env.createSwapChain_hr, state := s,
      events := [Event.createDevice, Event.queryIDXGIDevice,
                 Event.getAdapter, Event.getParentFactory,
                 Event.createSwapChainForHwnd,
                 Event.getBuffer, Event.createRenderTargetView,
                 Event.omSetRenderTargets,
                 Event.rsSetViewports 1920 1080] }

/-- `MainWindow::initPipeline` (main.cpp:267-328): compile the vertex and
pixel shaders (on failure log the error blob if present and return), create
the shader objects and input layout (results unchecked), create the constant
buffer (result unchecked) and bind it to VS slot 0.  Returns the HRESULT
last assigned, i.e. the pixel-shader compile result. -/
def initPipeline (env : Env) (s : MainWindow) : HrResult :=
  if FAILED env.compileVS_hr then
    { hr := env.compileVS_hr, state := s,
      events := [Event.d3dCompile "VSMain"] ++
        (if env.vsErrorBlob then [Event.logStdErr "vertex shader compile error"]
         else []) }
  else if FAILED env.compilePS_hr then
    { hr := env.compilePS_hr, state := s,
      events := [Event.d3dCompile "VSMain", Event.d3dCompile "PSMain"] ++
        (if env.psErrorBlob then [Event.logStdErr "pixel shader compile error"]
         else []) }
  else
    { hr := env.compilePS_hr, state := s,
      events := [Event.d3dCompile "VSMain", Event.d3dCompile "PSMain",
                 Event.createVertexShader, Event.createPixelShader,
                 Event.createInputLayout, Event.iaSetInputLayout,
                 Event.createBuffer BufferId.constBuffer,
                 Event.vsSetConstantBuffers 0 1 BufferId.constBuffer] }

/-- The triangle's vertices (main.cpp:332-336): three vertices with positions
(0, 0.5, 0), (0.5, -0.5, 0), (-0.5, -0.5, 0) colored red, green, blue. -/
def vertices : List Vertex :=
  [{ position := (0, 1/2, 0), color := (1, 0, 0, 1) },
   { position := (1/2, -1/2, 0), color := (0, 1, 0, 1) },
   { position := (-1/2, -1/2, 0), color := (0, 0, 1, 1) }]

/-- `MainWindow::initGraphics` (main.cpp:330-358): create the vertex buffer
from `vertices` (on failure log and return), bind it, and set the
triangle-list primitive topology. -/
def initGraphics (env : Env) (s : MainWindow) : HrResult :=
  if FAILED env.createVertexBuffer_hr then
    { hr := env.createVertexBuffer_hr, state := s,
      events := [Event.createBuffer BufferId.vertexBuffer,
                 Event.logStdErr "Failed to create buffer"] }
  else
    { hr := env.createVertexBuffer_hr, state := s,
      events := [Event.createBuffer BufferId.vertexBuffer,
                 Event.iaSetVertexBuffers BufferId.vertexBuffer,
                 Event.iaSetPrimitiveTopology
                   D3D11_PRIMITIVE_TOPOLOGY_TRIANGLELIST] }

/-- `MainWindow::createWindow` (main.cpp:456-482): query the screen
resolution, register the "MainWindow" class, create a WS_POPUP window titled
"DirectX 11 Triangle" sized to the screen, and if creation succeeded show it
and store the object pointer. -/
def createWindow (env : Env) (s : MainWindow) : StepResult :=
  let evs := [Event.registerClass "MainWindow",
              Event.createWindowExA "MainWindow" "DirectX 11 Triangle"
                WS_POPUP env.screenWidth env.screenHeight]
  if env.createWindow_succeeds then
    { state := { s with hWndValid := true }, events := evs ++ [Event.showWindow] }
  else
    { state := s, events := evs }

/-- Result of `MainWindow::init`: the boolean it returns, the state, and the
API calls made. -/
structure InitResult where
  ok : Bool
  state : MainWindow
  events : List Event
deriving DecidableEq, Repr

/-- `MainWindow::init` (main.cpp:390-404): create the window, then run
initD3D, initPipeline, initGraphics in order, returning false as soon as one
fails and true when all succeed. -/
def init (env : Env) (s : MainWindow) : InitResult :=
  let w := createWindow env s
  let r1 := initD3D env w.state
  if FAILED r1.hr then
    { ok := false, state := r1.state, events := w.events ++ r1.events }
  else
    let r2 := initPipeline env r1.state
    if FAILED r2.hr then
      { ok := false, state := r2.state,
        events := w.events ++ r1.events ++ r2.events }
    else
      let r3 := initGraphics env r2.state
      if FAILED r3.hr then
        { ok := false, state := r3.state,
          events := w.events ++ r1.events ++ r2.events ++ r3.events }
      else
        { ok := true, state := r3.state,
          events := w.events ++ r1.events ++ r2.events ++ r3.events }

/-- Result of the window procedure: new state, API calls, the exit code when
the handler called `exit`, and the LRESULT returned. -/
structure ProcResult where
  state : MainWindow
  events : List Event
  exitCode : Option Nat
  lresult : Int
deriving DecidableEq, Repr

/-- `MainWindow::WindowProc` (main.cpp:418-453): on WM_KEYDOWN with VK_F11,
toggle fullscreen, query the client rect and resize the swapchain, calling
`exit(1)` if the resize failed; WM_SIZE does nothing; WM_DESTROY posts
WM_QUIT; every other message goes to DefWindowProc. -/
def WindowProc (env : Env) (s : MainWindow) (message wParam : Nat) :
    ProcResult :=
  if message = WM_KEYDOWN then
    if wParam = VK_F11 then
      let t := toggleFullscreen env s
      let r := resizeSwapChain env t.state env.clientWidth env.clientHeight
      if FAILED r.hr then
        { state := r.state, events := t.events ++ r.events,
          exitCode := some 1, lresult := 0 }
      else
        { state := r.state, events := t.events ++ r.events,
          exitCode := none, lresult := 0 }
    else
      { state := s, events := [], exitCode := none, lresult := 0 }
  else if message = WM_SIZE then
    { state := s, events := [], exitCode := none, lresult := 0 }
  else if message = WM_DESTROY then
    { state := s, events := [Event.postQuitMessage 0],
      exitCode := none, lresult := 0 }
  else
    { state := s, events := [Event.defWindowProc],
      exitCode := none, lresult := env.defWindowProc_result }

/-- An OS message as retrieved by PeekMessage: its message id and wParam. -/
structure Msg where
  message : Nat
  wParam : Nat
deriving DecidableEq, Repr

/-- The zero-initialized `MSG msg = {}` of `mainloop` (main.cpp:407). -/
def msgInit : Msg := { message := 0, wParam := 0 }

/-- One `TranslateMessage` / `DispatchMessage` pair (main.cpp:410-411).
DispatchMessage routes window messages to `WindowProc`; WM_QUIT is a thread
message with no target window, so it is not routed to the procedure. -/
def dispatchMsg (env : Env) (s : MainWindow) (m : Msg) :
    MainWindow × List Event × Option Nat :=
  if m.message = WM_QUIT then
    (s, [Event.translateMessage, Event.dispatchMessage], none)
  else
    let r := WindowProc env s m.message m.wParam
    (r.state, [Event.translateMessage, Event.dispatchMessage] ++ r.events,
     r.exitCode)

/-- One iteration body of `mainloop` (main.cpp:409-414): if PeekMessage
retrieved a message (`some m`), translate and dispatch it and `m` becomes
the current msg; otherwise render one frame and the current msg is kept. -/
def iterStep (env : Env) (p : Option Msg) (msg : Msg) (s : MainWindow) :
    Msg × MainWindow × List Event × Option Nat :=
  match p with
  | some m =>
      let d := dispatchMsg env s m
      (m, d)
  | none =>
      let r := renderFrame s
      (msg, r.state, r.events, none)

/-- `MainWindow::mainloop` (main.cpp:406-416) on a finite schedule of
PeekMessage results: while the current msg is not WM_QUIT, run one
`iterStep` per schedule entry; a dispatched `exit(1)` aborts the run with
its exit code.  The schedule running out models the process still looping. -/
def mainloopAux (env : Env) :
    List (Option Msg) → Msg → MainWindow →
    MainWindow × List Event × Option Nat
  | [], _, s => (s, [], none)
  | p :: rest, msg, s =>
    if msg.message = WM_QUIT then (s, [], none)
    else
      let step := iterStep env p msg s
      match step.2.2.2 with
      | some code => (step.2.1, step.2.2.1, some code)
      | none =>
        let cont := mainloopAux env rest step.1 step.2.1
        (cont.1, step.2.2.1 ++ cont.2.1, cont.2.2)

/-- `MainWindow::mainloop` entry: start with the zero-initialized msg. -/
def mainloop (env : Env) (polls : List (Option Msg)) (s : MainWindow) :
    MainWindow × List Event × Option Nat :=
  mainloopAux env polls msgInit s

/-- `main` (main.cpp:486-493): default-construct the window, call `init`
ignoring its boolean result, run the message loop, return 0.  When a handler
called `exit(1)` during the loop the process exit code is that code instead. -/
def mainProgram (env : Env) (polls : List (Option Msg)) : Int × List Event :=
  let r := init env initialWindow
  let l := mainloop env polls r.state
  match l.2.2 with
  | some code => ((code : Int), r.events ++ l.2.1)
  | none => (0, r.events ++ l.2.1)

/-- Does the event update a GPU subresource (UpdateSubresource)? -/
def isUpdateEvent : Event → Bool
  | Event.updateSubresource _ _ => true
  | _ => false

/-- Does the event clear the render target (ClearRenderTargetView)? -/
def isClearEvent : Event → Bool
  | Event.clearRenderTargetView _ => true
  | _ => false

/-- Does the event issue a draw call? -/
def isDrawEvent : Event → Bool
  | Event.draw _ _ => true
  | _ => false

/-- Does the event present a frame? -/
def isPresentEvent : Event → Bool
  | Event.present _ _ => true
  | _ => false

/-- The GPU buffer whose contents the event writes, if any: buffer creation
uploads initial contents, UpdateSubresource overwrites contents. -/
def writesBuffer : Event → Option BufferId
  | Event.createBuffer b => some b
  | Event.updateSubresource b _ => some b
  | _ => none

/-- An environment in which SetFullscreenState fails with E_FAIL and
everything else succeeds. -/
def envFailFullscreen : Env := { envOk with setFullscreenState_hr := -2147467259 }

theorem toggleFullscreen_flag (env : Env) (s : MainWindow) :
    (toggleFullscreen env s).state.is_fullscreen_ = !s.is_fullscreen_ := by
  simp only [toggleFullscreen]
  split <;> rfl

theorem toggleFullscreen_event (env : Env) (s : MainWindow) :
    Event.setFullscreenState (!s.is_fullscreen_) ∈
      (toggleFullscreen env s).events := by
  simp only [toggleFullscreen]
  split <;> simp

theorem resizeSwapChain_state (env : Env) (s : MainWindow) (w h : Nat) :
    (resizeSwapChain env s w h).state = s := by
  simp only [resizeSwapChain]
  split
  · rfl
  · split
    · rfl
    · split <;> rfl

theorem WindowProc_keydown_f11_state (env : Env) (s : MainWindow) :
    (WindowProc env s WM_KEYDOWN VK_F11).state =
      (toggleFullscreen env s).state := by
  simp only [WindowProc, eq_self_iff_true, if_true]
  split <;> rw [resizeSwapChain_state]

theorem WindowProc_keydown_f11_events (env : Env) (s : MainWindow) :
    (WindowProc env s WM_KEYDOWN VK_F11).events =
      (toggleFullscreen env s).events ++
      (resizeSwapChain env (toggleFullscreen env s).state
        env.clientWidth env.clientHeight).events := by
  simp only [WindowProc, eq_self_iff_true, if_true]
  split <;> rfl

/-- C1: a WM_KEYDOWN of VK_F11 handled by the window procedure negates the
`is_fullscreen_` flag and sets the swapchain's fullscreen state to the new
flag value via SetFullscreenState; a WM_KEYDOWN of any other key leaves the
program state (hence the fullscreen flag and swapchain state) unchanged. -/
theorem C1_f11_toggles_fullscreen (env : Env) (s : MainWindow) (w : Nat)
    (hw : w ≠ VK_F11) :
    (WindowProc env s WM_KEYDOWN VK_F11).state.is_fullscreen_ =
        !s.is_fullscreen_
    ∧ Event.setFullscreenState (!s.is_fullscreen_) ∈
        (WindowProc env s WM_KEYDOWN VK_F11).events
    ∧ (WindowProc env s WM_KEYDOWN w).state = s := by
  refine ⟨?_, ?_, ?_⟩
  · rw [WindowProc_keydown_f11_state, toggleFullscreen_flag]
  · rw [WindowProc_keydown_f11_events]
    exact List.mem_append_left _ (toggleFullscreen_event env s)
  · simp [WindowProc, hw]

/-- Witness for C1 at a concrete non-F11 key (0) in the all-success
environment. -/
theorem C1_f11_toggles_fullscreen_witness :
    (0 : Nat) ≠ VK_F11
    ∧ ((WindowProc envOk initialWindow WM_KEYDOWN VK_F11).state.is_fullscreen_
          = !initialWindow.is_fullscreen_
       ∧ Event.setFullscreenState (!initialWindow.is_fullscreen_) ∈
          (WindowProc envOk initialWindow WM_KEYDOWN VK_F11).events
       ∧ (WindowProc envOk initialWindow WM_KEYDOWN 0).state = initialWindow) :=
  ⟨by decide, C1_f11_toggles_fullscreen envOk initialWindow 0 (by decide)⟩

/-- C10: the fullscreen toggle is not atomic with respect to failure: the
flag is negated before SetFullscreenState is called, so when the call fails
the flag stays negated while the swapchain's actual fullscreen state is
unchanged; starting from a state where flag and swapchain agree, they
diverge. -/
theorem C10_toggle_not_atomic (env : Env) (s : MainWindow)
    (hfail : FAILED env.setFullscreenState_hr = true)
    (hsync : s.swapchainFullscreen = s.is_fullscreen_) :
    (toggleFullscreen env s).state.is_fullscreen_ = !s.is_fullscreen_
    ∧ (toggleFullscreen env s).state.swapchainFullscreen =
        s.swapchainFullscreen
    ∧ (toggleFullscreen env s).state.is_fullscreen_ ≠
        (toggleFullscreen env s).state.swapchainFullscreen := by
  unfold toggleFullscreen
  simp [hfail, hsync]

/-- Witness for C10: with E_FAIL from SetFullscreenState and the initial
(windowed, agreeing) state. -/
theorem C10_toggle_not_atomic_witness :
    FAILED envFailFullscreen.setFullscreenState_hr = true
    ∧ initialWindow.swapchainFullscreen = initialWindow.is_fullscreen_
    ∧ ((toggleFullscreen envFailFullscreen initialWindow).state.is_fullscreen_
          = !initialWindow.is_fullscreen_
       ∧ (toggleFullscreen envFailFullscreen initialWindow).state.swapchainFullscreen
          = initialWindow.swapchainFullscreen
       ∧ (toggleFullscreen envFailFullscreen initialWindow).state.is_fullscreen_
          ≠ (toggleFullscreen envFailFullscreen initialWindow).state.swapchainFullscreen) :=
  ⟨by decide, by decide,
   C10_toggle_not_atomic envFailFullscreen initialWindow (by decide) (by decide)⟩

/-- C4 counterexample: at the initial state, `renderFrame` performs
UpdateSubresource (index 0) before ClearRenderTargetView (index 2), so the
claimed clear-then-update-then-draw-then-present order is false: the clear
does not precede the constant-buffer update. -/
theorem C4_clear_before_update_counterexample :
    ¬ ((renderFrame initialWindow).events.findIdx isClearEvent <
         (renderFrame initialWindow).events.findIdx isUpdateEvent
       ∧ (renderFrame initialWindow).events.findIdx isUpdateEvent <
         (renderFrame initialWindow).events.findIdx isDrawEvent
       ∧ (renderFrame initialWindow).events.findIdx isDrawEvent <
         (renderFrame initialWindow).events.findIdx isPresentEvent) := by
  decide

/-- C4 (amended): every execution of `renderFrame` performs update, clear,
draw, present in that order: the constant buffer is updated with the new
rotation matrix, then the render target is cleared, then the triangle is
drawn, then the frame is presented. -/
theorem C4_frame_order (s : MainWindow) :
    (renderFrame s).events.findIdx isUpdateEvent <
      (renderFrame s).events.findIdx isClearEvent
    ∧ (renderFrame s).events.findIdx isClearEvent <
      (renderFrame s).events.findIdx isDrawEvent
    ∧ (renderFrame s).events.findIdx isDrawEvent <
      (renderFrame s).events.findIdx isPresentEvent
    ∧ Event.updateSubresource BufferId.constBuffer
        { FinalMatrix := XMMatrixTranspose (XMMatrixRotationZ (s.Time + 1/100)) }
        ∈ (renderFrame s).events
    ∧ Event.clearRenderTargetView clearColor ∈ (renderFrame s).events := by
  refine ⟨?_, ?_, ?_, ?_, ?_⟩ <;>
    simp [renderFrame, isUpdateEvent, isClearEvent, isDrawEvent,
      isPresentEvent, List.findIdx_cons]

/-- Does the event create the constant buffer? -/
def createsConstBuffer : Event → Bool
  | Event.createBuffer BufferId.constBuffer => true
  | _ => false

/-- C5: under a successful startup, the constant buffer is created exactly
once during the whole of `init` (inside `initPipeline`); each `renderFrame`
performs exactly one UpdateSubresource, and every buffer write a frame
performs targets the constant buffer — in particular the vertex buffer is
never written after startup. -/
theorem C5_buffer_discipline (env : Env) (s : MainWindow)
    (h1 : FAILED env.createDevice_hr = false)
    (h2 : FAILED env.queryIDXGIDevice_hr = false)
    (h3 : FAILED env.getAdapter_hr = false)
    (h4 : FAILED env.getParentFactory_hr = false)
    (h5 : FAILED env.createSwapChain_hr = false)
    (h6 : FAILED env.compileVS_hr = false)
    (h7 : FAILED env.compilePS_hr = false)
    (h8 : FAILED env.createVertexBuffer_hr = false) :
    (init env s).events.countP createsConstBuffer = 1
    ∧ (renderFrame s).events.countP isUpdateEvent = 1
    ∧ ∀ e ∈ (renderFrame s).events,
        writesBuffer e = none ∨ writesBuffer e = some BufferId.constBuffer := by
  refine ⟨?_, ?_, ?_⟩
  · cases hcw : env.createWindow_succeeds <;>
      simp [init, createWindow, initD3D, initPipeline, initGraphics,
        h1, h2, h3, h4, h5, h6, h7, h8, hcw, createsConstBuffer,
        List.countP_cons, List.countP_append]
  · simp [renderFrame, isUpdateEvent, List.countP_cons]
  · intro e he
    simp [renderFrame] at he
    rcases he with h | h | h | h | h | h | h <;> subst h <;> simp [writesBuffer]

/-- Witness for C5 in the all-success environment at the initial state. -/
theorem C5_buffer_discipline_witness :
    FAILED envOk.createDevice_hr = false
    ∧ ((init envOk initialWindow).events.countP createsConstBuffer = 1
       ∧ (renderFrame initialWindow).events.countP isUpdateEvent = 1
       ∧ ∀ e ∈ (renderFrame initialWindow).events,
          writesBuffer e = none ∨ writesBuffer e = some BufferId.constBuffer) :=
  ⟨by decide,
   C5_buffer_discipline envOk initialWindow (by decide) (by decide) (by decide)
     (by decide) (by decide) (by decide) (by decide) (by decide)⟩

/-- C8: every rendered frame issues exactly one draw call, `Draw(3, 0)`,
over the 3-vertex buffer bound with triangle-list topology at startup; the
frame advances the rotation time accumulator by 0.01 and uploads the
transpose of the Z-rotation matrix at the accumulated time, so successive
frames use strictly advanced rotation angles. -/
theorem C8_rotating_triangle (env : Env) (s : MainWindow)
    (h : FAILED env.createVertexBuffer_hr = false) :
    (renderFrame s).events.countP isDrawEvent = 1
    ∧ Event.draw 3 0 ∈ (renderFrame s).events
    ∧ Event.createBuffer BufferId.vertexBuffer ∈ (initGraphics env s).events
    ∧ Event.iaSetPrimitiveTopology D3D11_PRIMITIVE_TOPOLOGY_TRIANGLELIST
        ∈ (initGraphics env s).events
    ∧ vertices.length = 3
    ∧ (renderFrame s).state.Time = s.Time + 1/100
    ∧ Event.updateSubresource BufferId.constBuffer
        { FinalMatrix := XMMatrixTranspose (XMMatrixRotationZ (s.Time + 1/100)) }
        ∈ (renderFrame s).events
    ∧ s.Time < (renderFrame s).state.Time := by
  refine ⟨?_, ?_, ?_, ?_, ?_, ?_, ?_, ?_⟩ <;>
    simp [renderFrame, initGraphics, vertices, h, isDrawEvent,
      List.countP_cons]

/-- Witness for C8 in the all-success environment at the initial state. -/
theorem C8_rotating_triangle_witness :
    FAILED envOk.createVertexBuffer_hr = false
    ∧ ((renderFrame initialWindow).events.countP isDrawEvent = 1
       ∧ Event.draw 3 0 ∈ (renderFrame initialWindow).events
       ∧ Event.createBuffer BufferId.vertexBuffer
          ∈ (initGraphics envOk initialWindow).events
       ∧ Event.iaSetPrimitiveTopology D3D11_PRIMITIVE_TOPOLOGY_TRIANGLELIST
          ∈ (initGraphics envOk initialWindow).events
       ∧ vertices.length = 3
       ∧ (renderFrame initialWindow).state.Time = initialWindow.Time + 1/100
       ∧ Event.updateSubresource BufferId.constBuffer
          { FinalMatrix :=
              XMMatrixTranspose (XMMatrixRotationZ (initialWindow.Time + 1/100)) }
          ∈ (renderFrame initialWindow).events
       ∧ initialWindow.Time < (renderFrame initialWindow).state.Time) :=
  ⟨by decide, C8_rotating_triangle envOk initialWindow (by decide)⟩

theorem init_events_prefix (env : Env) (s : MainWindow) :
    ∃ t, (init env s).events = (createWindow env s).events ++ t := by
  simp only [init]
  split
  · exact ⟨_, rfl⟩
  · split
    · exact ⟨_, List.append_assoc _ _ _⟩
    · split
      · exact ⟨_, (List.append_assoc _ _ _).trans (List.append_assoc _ _ _)⟩
      · exact ⟨_, (List.append_assoc _ _ _).trans (List.append_assoc _ _ _)⟩

/-- An environment in which D3D11CreateDevice fails with E_FAIL and
everything else succeeds. -/
def envFailDevice : Env := { envOk with createDevice_hr := -2147467259 }

theorem toggleFullscreen_no_present (env : Env) (s : MainWindow) :
    (toggleFullscreen env s).events.countP isPresentEvent = 0 := by
  simp only [toggleFullscreen]
  split <;> simp [isPresentEvent, List.countP_cons]

theorem resizeSwapChain_no_present (env : Env) (s : MainWindow) (w h : Nat) :
    (resizeSwapChain env s w h).events.countP isPresentEvent = 0 := by
  simp only [resizeSwapChain]
  split
  · simp [isPresentEvent, List.countP_cons]
  · split
    · simp [isPresentEvent, List.countP_cons]
    · split <;> simp [isPresentEvent, List.countP_cons, List.countP_append]

theorem WindowProc_no_present (env : Env) (s : MainWindow)
    (message wParam : Nat) :
    (WindowProc env s message wParam).events.countP isPresentEvent = 0 := by
  simp only [WindowProc]
  split
  · split
    · split <;>
        · simp only [List.countP_append]
          rw [toggleFullscreen_no_present, resizeSwapChain_no_present]
    · simp
  · split
    · simp
    · split <;> simp [isPresentEvent, List.countP_cons]

theorem toggleFullscreen_no_draw (env : Env) (s : MainWindow) :
    (toggleFullscreen env s).events.countP isDrawEvent = 0 := by
  simp only [toggleFullscreen]
  split <;> simp [isDrawEvent, List.countP_cons]

theorem resizeSwapChain_no_draw (env : Env) (s : MainWindow) (w h : Nat) :
    (resizeSwapChain env s w h).events.countP isDrawEvent = 0 := by
  simp only [resizeSwapChain]
  split
  · simp [isDrawEvent, List.countP_cons]
  · split
    · simp [isDrawEvent, List.countP_cons]
    · split <;> simp [isDrawEvent, List.countP_cons, List.countP_append]

theorem WindowProc_no_draw (env : Env) (s : MainWindow)
    (message wParam : Nat) :
    (WindowProc env s message wParam).events.countP isDrawEvent = 0 := by
  simp only [WindowProc]
  split
  · split
    · split <;>
        · simp only [List.countP_append]
          rw [toggleFullscreen_no_draw, resizeSwapChain_no_draw]
    · simp
  · split
    · simp
    · split <;> simp [isDrawEvent, List.countP_cons]

/-- C2: handling WM_DESTROY posts a WM_QUIT message; once the retrieved
message is WM_QUIT the loop performs no further iteration (no state change,
no events, no exit call), while with a non-WM_QUIT current message the loop
body runs again (here: a pending render iteration executes); and when the
loop exits (no handler called `exit`), the program's exit code is 0. -/
theorem C2_close_exits (env : Env) (s : MainWindow) (wParam : Nat)
    (polls rest : List (Option Msg)) (mq mr : Msg)
    (hq : mq.message = WM_QUIT) (hr2 : mr.message ≠ WM_QUIT)
    (hexit : (mainloop env polls (init env initialWindow).state).2.2 = none) :
    Event.postQuitMessage 0 ∈ (WindowProc env s WM_DESTROY wParam).events
    ∧ mainloopAux env polls mq s = (s, [], none)
    ∧ (mainloopAux env (none :: rest) mr s).2.1 =
        (renderFrame s).events ++
          (mainloopAux env rest mr (renderFrame s).state).2.1
    ∧ (mainProgram env polls).1 = 0 := by
  refine ⟨?_, ?_, ?_, ?_⟩
  · simp [WindowProc, WM_DESTROY, WM_KEYDOWN, WM_SIZE]
  · cases polls with
    | nil => simp [mainloopAux]
    | cons p rest2 => simp [mainloopAux, hq]
  · simp [mainloopAux, iterStep, hr2]
  · simp only [mainProgram, mainloop] at hexit ⊢
    rw [hexit]

/-- Witness for C2: empty schedule, WM_QUIT and WM_KEYDOWN messages, in the
all-success environment. -/
theorem C2_close_exits_witness :
    (Msg.mk WM_QUIT 0).message = WM_QUIT
    ∧ (Msg.mk 0 0).message ≠ WM_QUIT
    ∧ (mainloop envOk [] (init envOk initialWindow).state).2.2 = none
    ∧ (Event.postQuitMessage 0 ∈
        (WindowProc envOk initialWindow WM_DESTROY 0).events
       ∧ mainloopAux envOk [] (Msg.mk WM_QUIT 0) initialWindow =
          (initialWindow, [], none)
       ∧ (mainloopAux envOk [none] (Msg.mk 0 0) initialWindow).2.1 =
          (renderFrame initialWindow).events ++
            (mainloopAux envOk [] (Msg.mk 0 0)
              (renderFrame initialWindow).state).2.1
       ∧ (mainProgram envOk []).1 = 0) :=
  ⟨by decide, by decide, by decide,
   C2_close_exits envOk initialWindow 0 [] [] (Msg.mk WM_QUIT 0) (Msg.mk 0 0)
     (by decide) (by decide) (by decide)⟩

theorem WindowProc_exitCode (env : Env) (s : MainWindow)
    (message wParam : Nat) :
    (WindowProc env s message wParam).exitCode =
      if message = WM_KEYDOWN ∧ wParam = VK_F11 ∧
          FAILED (resizeSwapChain env (toggleFullscreen env s).state
            env.clientWidth env.clientHeight).hr = true
      then some 1 else none := by
  simp only [WindowProc]
  split_ifs with h1 h2 h3 h4 h5 h6 h7 h8 h9 h10 h11 <;> simp_all

/-- C3: the only call to `exit` in the program is in the F11 branch of the
window procedure: the procedure exits (with code 1) exactly when the message
is WM_KEYDOWN with VK_F11 and the swapchain resize performed after the
fullscreen toggle returns a failed HRESULT.  Other graphics-API failures are
logged to standard error (e.g. SetFullscreenState and device creation) or
silently ignored, and execution continues: `renderFrame` ignores the Present
result and always returns S_OK. -/
theorem C3_exit_only_on_resize_failure (env : Env) (s : MainWindow)
    (message wParam : Nat) :
    ((WindowProc env s message wParam).exitCode = some 1 ↔
      (message = WM_KEYDOWN ∧ wParam = VK_F11 ∧
        FAILED (resizeSwapChain env (toggleFullscreen env s).state
          env.clientWidth env.clientHeight).hr = true))
    ∧ ((WindowProc env s message wParam).exitCode = none ∨
       (WindowProc env s message wParam).exitCode = some 1)
    ∧ (FAILED env.setFullscreenState_hr = true →
        Event.logStdErr "Failed to toggle fullscreen mode." ∈
          (toggleFullscreen env s).events)
    ∧ (FAILED env.createDevice_hr = true →
        (initD3D env s).hr = env.createDevice_hr ∧
        Event.logStdErr "Failed to create device" ∈ (initD3D env s).events)
    ∧ (renderFrame s).hr = S_OK := by
  refine ⟨?_, ?_, ?_, ?_, rfl⟩
  · rw [WindowProc_exitCode]
    split
    · next hcond => simp [hcond]
    · next hcond => simp [hcond]
  · rw [WindowProc_exitCode]
    split <;> simp
  · intro hfail
    simp [toggleFullscreen, hfail]
  · intro hfail
    simp [initD3D, hfail]

/-- C6: each iteration of the main loop performs exactly one of two actions:
when a message is pending it is translated and dispatched and no frame is
rendered (no Present, no Draw); when no message is pending exactly one frame
is rendered (the iteration's events are exactly those of `renderFrame`,
containing one Present). -/
theorem C6_iteration_dichotomy (env : Env) (m msg : Msg) (s : MainWindow) :
    ((iterStep env (some m) msg s).2.2.1.countP isPresentEvent = 0
     ∧ (iterStep env (some m) msg s).2.2.1.countP isDrawEvent = 0
     ∧ Event.translateMessage ∈ (iterStep env (some m) msg s).2.2.1
     ∧ Event.dispatchMessage ∈ (iterStep env (some m) msg s).2.2.1)
    ∧ ((iterStep env none msg s).2.2.1 = (renderFrame s).events
       ∧ (iterStep env none msg s).2.2.1.countP isPresentEvent = 1) := by
  refine ⟨⟨?_, ?_, ?_, ?_⟩, rfl, ?_⟩
  · simp only [iterStep, dispatchMsg]
    split
    · simp [isPresentEvent]
    · simp only [List.countP_append]
      rw [WindowProc_no_present]
      simp [isPresentEvent, List.countP_cons]
  · simp only [iterStep, dispatchMsg]
    split
    · simp [isDrawEvent]
    · simp only [List.countP_append]
      rw [WindowProc_no_draw]
      simp [isDrawEvent, List.countP_cons]
  · simp only [iterStep, dispatchMsg]
    split <;> simp
  · simp only [iterStep, dispatchMsg]
    split <;> simp
  · simp [iterStep, renderFrame, isPresentEvent, List.countP_cons]

/-- C7: at startup the program registers the "MainWindow" class and creates a
WS_POPUP window titled "DirectX 11 Triangle" whose width and height are the
screen resolution reported by the OS, and — when creation succeeds — shows
it; this window creation is part of `init`. -/
theorem C7_window_creation (env : Env) (s : MainWindow)
    (h : env.createWindow_succeeds = true) :
    (createWindow env s).events =
      [Event.registerClass "MainWindow",
       Event.createWindowExA "MainWindow" "DirectX 11 Triangle" WS_POPUP
         env.screenWidth env.screenHeight,
       Event.showWindow]
    ∧ Event.createWindowExA "MainWindow" "DirectX 11 Triangle" WS_POPUP
        env.screenWidth env.screenHeight ∈ (init env s).events := by
  have hc : (createWindow env s).events =
      [Event.registerClass "MainWindow",
       Event.createWindowExA "MainWindow" "DirectX 11 Triangle" WS_POPUP
         env.screenWidth env.screenHeight,
       Event.showWindow] := by
    simp [createWindow, h]
  refine ⟨hc, ?_⟩
  obtain ⟨t, ht⟩ := init_events_prefix env s
  rw [ht, hc]
  simp

/-- Witness for C7 in the all-success environment at the initial state. -/
theorem C7_window_creation_witness :
    envOk.createWindow_succeeds = true
    ∧ ((createWindow envOk initialWindow).events =
        [Event.registerClass "MainWindow",
         Event.createWindowExA "MainWindow" "DirectX 11 Triangle" WS_POPUP
           envOk.screenWidth envOk.screenHeight,
         Event.showWindow]
       ∧ Event.createWindowExA "MainWindow" "DirectX 11 Triangle" WS_POPUP
          envOk.screenWidth envOk.screenHeight ∈
          (init envOk initialWindow).events) :=
  ⟨by decide, C7_window_creation envOk initialWindow (by decide)⟩

/-- C9: `main` ignores the boolean returned by `init`: when device creation
fails, `init` returns false, yet the message loop still runs and the first
message-free iteration still calls `renderFrame` (its Draw call appears in
the program trace). -/
theorem C9_init_failure_ignored (env : Env) (polls : List (Option Msg))
    (h : FAILED env.createDevice_hr = true) :
    (init env initialWindow).ok = false
    ∧ Event.draw 3 0 ∈ (mainProgram env (none :: polls)).2 := by
  constructor
  · cases hcw : env.createWindow_succeeds <;>
      simp [init, initD3D, createWindow, h, hcw]
  · have hmem : Event.draw 3 0 ∈
        (mainloop env (none :: polls) (init env initialWindow).state).2.1 := by
      simp [mainloop, mainloopAux, iterStep, msgInit, WM_QUIT, renderFrame]
    cases hloop : (mainloop env (none :: polls) (init env initialWindow).state).2.2 with
    | none =>
        simp only [mainProgram, mainloop] at hloop hmem ⊢
        rw [hloop]
        exact List.mem_append_right _ hmem
    | some code =>
        simp only [mainProgram, mainloop] at hloop hmem ⊢
        rw [hloop]
        exact List.mem_append_right _ hmem

/-- Witness for C9: device creation fails with E_FAIL, one message-free
loop iteration. -/
theorem C9_init_failure_ignored_witness :
    FAILED envFailDevice.createDevice_hr = true
    ∧ ((init envFailDevice initialWindow).ok = false
       ∧ Event.draw 3 0 ∈ (mainProgram envFailDevice [none]).2) :=
  ⟨by decide, C9_init_failure_ignored envFailDevice [] (by decide)⟩

end D3DTriangle
